import Mathlib

/-!
Shallow embedding of `src/sample_mcp_service/server.py` (a small MCP demo
service with three tools: `health`, `get_weather`, `get_air_quality`, plus a
hand-written tool-definition exporter `generate_tool_definitions`).

Conventions of the embedding:
  * Python floats appearing in the handlers are constant decimal literals
    combined by exact arithmetic, so they are modelled as rationals (`ℚ`).
  * Pydantic input validation (the `Field(...)` declarations on the request
    models, lines 25-29 and 44-47 of server.py) is modelled by explicit
    validator functions over a small JSON-like value type, returning
    `Except ValidationError _`.  Pydantic v2 lax coercion for `int` fields
    (accept an integral number or a string parsing as an integer, reject
    booleans, null and fractional numbers) is modelled by `coerceInt`;
    `str` fields accept only strings (`coerceStr`).
  * The handlers never perform effects in the current build (the real HTTP
    call is commented out in the source), so they are total functions; the
    `try/except` wrapper of each handler is modelled by the `HandlerResult`
    sum type whose `error` constructor corresponds to the `{"error": str(e)}`
    payload of the `except` branch.
  * Python's truthiness fallback `x or d` on an `Optional[str]` value
    (lines 68, 106, 133, 138) is modelled by `pyOrStr`: both `None` and the
    empty string are falsy.
-/

/-- JSON-like raw argument values as they arrive before validation. -/
inductive JsonValue where
  | jnull
  | jbool (b : Bool)
  | jnum (q : ℚ)
  | jstr (s : String)
deriving DecidableEq, Repr

/-- A pydantic validation failure, recording the offending field and message. -/
structure ValidationError where
  field : String
  msg : String
deriving DecidableEq, Repr

/-- Pydantic v2 lax coercion to `int`: an integral number is accepted, a
string is accepted when it parses as an integer, booleans/null/fractional
numbers are rejected. -/
def coerceInt : JsonValue → Option Int
  | .jnum q => if q.den = 1 then some q.num else none
  | .jstr s => s.toInt?
  | _ => none

/-- Pydantic v2 coercion to `str`: only a string is accepted. -/
def coerceStr : JsonValue → Option String
  | .jstr s => some s
  | _ => none

/-- Validated `WeatherRequest` (server.py lines 25-29). -/
structure WeatherRequest where
  city : String
  country_code : Option String
  days : Int
  api_key : Option String
deriving DecidableEq, Repr

/-- Validated `AirQualityRequest` (server.py lines 44-47). -/
structure AirQualityRequest where
  city : String
  country_code : Option String
  api_key : Option String
deriving DecidableEq, Repr

/-- Raw (pre-validation) argument object for `get_weather`. -/
structure RawWeatherPayload where
  city : Option JsonValue
  country_code : Option JsonValue
  days : Option JsonValue
  api_key : Option JsonValue
deriving DecidableEq, Repr

/-- Raw (pre-validation) argument object for `get_air_quality`. -/
structure RawAirQualityPayload where
  city : Option JsonValue
  country_code : Option JsonValue
  api_key : Option JsonValue
deriving DecidableEq, Repr

/-- Validation of a required `str` field (`city: str = Field(...)`). -/
def validateRequiredStr (name : String) : Option JsonValue → Except ValidationError String
  | none => .error { field := name, msg := "Field required" }
  | some v =>
    match coerceStr v with
    | some s => .ok s
    | none => .error { field := name, msg := "Input should be a valid string" }

/-- Validation of an `Optional[str]` field with default `None`. -/
def validateOptionalStr (name : String) : Option JsonValue → Except ValidationError (Option String)
  | none => .ok none
  | some .jnull => .ok none
  | some v =>
    match coerceStr v with
    | some s => .ok (some s)
    | none => .error { field := name, msg := "Input should be a valid string" }

/-- Validation of `days: int = Field(3, ge=1, le=7)` (server.py line 28):
absent resolves to the default 3; a present value must coerce to an integer
and lie in [1,7], otherwise the call is rejected (never clamped). -/
def validateDays : Option JsonValue → Except ValidationError Int
  | none => .ok 3
  | some v =>
    match coerceInt v with
    | some n =>
      if n < 1 then .error { field := "days", msg := "Input should be greater than or equal to 1" }
      else if 7 < n then .error { field := "days", msg := "Input should be less than or equal to 7" }
      else .ok n
    | none => .error { field := "days", msg := "Input should be a valid integer" }

/-- Field-by-field validation of a raw `get_weather` argument object against
the `WeatherRequest` pydantic model. -/
def validateWeatherRequest (p : RawWeatherPayload) : Except ValidationError WeatherRequest :=
  match validateRequiredStr "city" p.city with
  | .error e => .error e
  | .ok city =>
    match validateOptionalStr "country_code" p.country_code with
    | .error e => .error e
    | .ok country_code =>
      match validateDays p.days with
      | .error e => .error e
      | .ok days =>
        match validateOptionalStr "api_key" p.api_key with
        | .error e => .error e
        | .ok api_key =>
          .ok { city := city, country_code := country_code, days := days, api_key := api_key }

/-- Field-by-field validation of a raw `get_air_quality` argument object
against the `AirQualityRequest` pydantic model. -/
def validateAirQualityRequest (p : RawAirQualityPayload) : Except ValidationError AirQualityRequest :=
  match validateRequiredStr "city" p.city with
  | .error e => .error e
  | .ok city =>
    match validateOptionalStr "country_code" p.country_code with
    | .error e => .error e
    | .ok country_code =>
      match validateOptionalStr "api_key" p.api_key with
      | .error e => .error e
      | .ok api_key =>
        .ok { city := city, country_code := country_code, api_key := api_key }

/-- Python truthiness fallback `x or d` on an `Optional[str]` value:
`None` and the empty string are falsy, so both fall back to `d`. -/
def pyOrStr : Option String → String → String
  | none, d => d
  | some s, d => if s = "" then d else s

/-- One synthesized forecast entry (server.py lines 97-102). -/
structure ForecastDay where
  date : String
  min_temp : ℚ
  max_temp : ℚ
  condition : String
deriving DecidableEq, Repr

/-- Success payload of `get_weather` (server.py lines 104-110). -/
structure WeatherPayload where
  city : String
  country : String
  current_temp : ℚ
  current_condition : String
  forecast : List ForecastDay
deriving DecidableEq, Repr

/-- Success payload of `get_air_quality` (server.py lines 136-150). -/
structure AirQualityPayload where
  city : String
  country : String
  aqi : Int
  quality_level : String
  pollutants : List (String × ℚ)
  health_recommendations : String
deriving DecidableEq, Repr

/-- Result of a handler wrapped in `try/except`: either the success payload
or the in-band `\x7b"error": str(e)\x7d` object of the `except` branch. -/
inductive HandlerResult (α : Type) where
  | ok (payload : α)
  | error (msg : String)
deriving DecidableEq, Repr

/-- True iff the handler produced a success payload rather than an in-band
error object. -/
def HandlerResult.isOk {α : Type} : HandlerResult α → Bool
  | .ok _ => true
  | .error _ => false

/-- The effective API key resolved at server.py line 68:
`api_key = request.api_key or DEFAULT_WEATHER_API_KEY`. -/
def weatherEffectiveApiKey (request : WeatherRequest) (defaultKey : String) : String :=
  pyOrStr request.api_key defaultKey

/-- The `get_weather` handler body (server.py lines 54-117).  The commented-out
HTTP call is absent from the build; the body only synthesizes demo data, so it
is a total function and the `except` branch is never taken. -/
def get_weather (request : WeatherRequest) (defaultKey : String) : HandlerResult WeatherPayload :=
  let _api_key := weatherEffectiveApiKey request defaultKey
  let forecast_days : List ForecastDay :=
    (List.range request.days.toNat).map fun (i : Nat) =>
      { date := "2025-05-" ++ toString (27 + i)
        min_temp := 18 + (i : ℚ) * 0.5
        max_temp := 25 + (i : ℚ) * 0.7
        condition := if i % 2 == 0 then "Sunny" else "Cloudy" }
  .ok { city := request.city
        country := pyOrStr request.country_code "US"
        current_temp := 23.5
        current_condition := "Sunny"
        forecast := forecast_days }

/-- The effective API key resolved at server.py line 133. -/
def airQualityEffectiveApiKey (request : AirQualityRequest) (defaultKey : String) : String :=
  pyOrStr request.api_key defaultKey

/-- The `get_air_quality` handler body (server.py lines 119-157): a fixed
payload with only `city` and `country` echoed from the request. -/
def get_air_quality (request : AirQualityRequest) (defaultKey : String) :
    HandlerResult AirQualityPayload :=
  let _api_key := airQualityEffectiveApiKey request defaultKey
  .ok { city := request.city
        country := pyOrStr request.country_code "US"
        aqi := 45
        quality_level := "Good"
        pollutants := [("pm2_5", 12.5), ("pm10", 25.3), ("o3", 68.2),
                       ("no2", 15.7), ("so2", 5.2), ("co", 0.8)]
        health_recommendations := "Air quality is good. Suitable for outdoor activities." }

/-- Payload of the `health` tool (server.py lines 49-52). -/
structure HealthPayload where
  status : String
deriving DecidableEq, Repr

/-- The `health` handler: takes no input, returns `\x7b"status": "ok"\x7d`. -/
def health (_ : Unit) : HealthPayload := { status := "ok" }

/-- The JSON-schema description of one parameter in the hand-written tool
definitions (server.py lines 177-195 and 206-217): only `days` carries
`default` / `minimum` / `maximum`. -/
structure PropertySchema where
  type : String
  description : String
  default : Option Int := none
  minimum : Option Int := none
  maximum : Option Int := none
deriving DecidableEq, Repr

/-- The `parameters` sub-object of a tool definition. -/
structure ToolParameters where
  type : String
  properties : List (String × PropertySchema)
  required : List String
deriving DecidableEq, Repr

/-- One entry of the exported tool-definition list. -/
structure ToolDefinition where
  name : String
  description : String
  parameters : ToolParameters
deriving DecidableEq, Repr

/-- The hand-maintained tool-definition exporter
(`generate_tool_definitions`, server.py lines 160-224), transcribed field by
field. -/
def generate_tool_definitions : List ToolDefinition :=
  [ { name := "health"
      description := "Service status check"
      parameters := { type := "object", properties := [], required := [] } },
    { name := "get_weather"
      description := "Provides current weather and forecast for a specific city."
      parameters :=
        { type := "object"
          properties :=
            [ ("city", { type := "string"
                         description := "City name to check the weather for" }),
              ("country_code", { type := "string"
                                 description := "Country code (e.g., \x27US\x27, \x27UK\x27)" }),
              ("days", { type := "integer"
                         description := "Number of days for the forecast"
                         default := some 3
                         minimum := some 1
                         maximum := some 7 }),
              ("api_key", { type := "string"
                            description := "Weather API key (uses default if not provided)" }) ]
          required := ["city"] } },
    { name := "get_air_quality"
      description := "Provides air quality information for a specific city."
      parameters :=
        { type := "object"
          properties :=
            [ ("city", { type := "string"
                         description := "City name to check air quality for" }),
              ("country_code", { type := "string"
                                 description := "Country code (e.g., \x27US\x27, \x27UK\x27)" }),
              ("api_key", { type := "string"
                            description := "Air quality API key (uses default if not provided)" }) ]
          required := ["city"] } } ]

/-- Payload of the `get_tool_definitions` tool (server.py lines 226-229). -/
structure ToolDefinitionsPayload where
  tools : List ToolDefinition
deriving DecidableEq, Repr

/-- The `get_tool_definitions` handler: wraps the exporter output in
`\x7b"tools": ...\x7d`. -/
def get_tool_definitions (_ : Unit) : ToolDefinitionsPayload :=
  { tools := generate_tool_definitions }

/-- C9: the `health` tool takes no input and returns exactly
`\x7b"status": "ok"\x7d` on every invocation, unconditionally. -/
theorem health_returns_ok (u : Unit) : health u = { status := "ok" } := rfl

/-- C5: for every validated `AirQualityRequest`, `get_air_quality` succeeds
with the fixed constants aqi = 45, quality_level = "Good", the fixed pollutant
map, and the fixed recommendation text, regardless of the request and of the
default key; only `city` (and `country`) are taken from the input. -/
theorem air_quality_constants (request : AirQualityRequest) (defaultKey : String) :
    ∃ p, get_air_quality request defaultKey = .ok p ∧
      p.aqi = 45 ∧
      p.quality_level = "Good" ∧
      p.pollutants = [("pm2_5", (12.5 : ℚ)), ("pm10", 25.3), ("o3", 68.2),
                      ("no2", 15.7), ("so2", 5.2), ("co", 0.8)] ∧
      p.health_recommendations = "Air quality is good. Suitable for outdoor activities." ∧
      p.city = request.city :=
  ⟨_, rfl, rfl, rfl, rfl, rfl, rfl⟩

/-- C7: neither handler ever takes the in-band `\x7b"error": ...\x7d` branch:
for every validated input (and any default key) the handler bodies are total
constant synthesis, so the success payload is always returned. -/
theorem handlers_never_error (reqW : WeatherRequest) (reqA : AirQualityRequest)
    (k1 k2 : String) :
    (get_weather reqW k1).isOk = true ∧ (get_air_quality reqA k2).isOk = true :=
  ⟨rfl, rfl⟩

/-- C10: the fallbacks at server.py lines 68, 106, 133 and 138 are decided by
truthiness, not presence: a `country_code` equal to the empty string yields
`country = "US"` exactly as an absent one does, in both handlers, and an
`api_key` equal to the empty string resolves to the process-wide default key
in both handlers. -/
theorem fallbacks_by_truthiness (city : String) (days : Int)
    (ak cc : Option String) (defaultKey : String) :
    (∃ p, get_weather { city := city, country_code := some "", days := days, api_key := ak }
        defaultKey = .ok p ∧ p.country = "US") ∧
    (∃ p, get_weather { city := city, country_code := none, days := days, api_key := ak }
        defaultKey = .ok p ∧ p.country = "US") ∧
    (∃ p, get_air_quality { city := city, country_code := some "", api_key := ak }
        defaultKey = .ok p ∧ p.country = "US") ∧
    (∃ p, get_air_quality { city := city, country_code := none, api_key := ak }
        defaultKey = .ok p ∧ p.country = "US") ∧
    weatherEffectiveApiKey { city := city, country_code := cc, days := days, api_key := some "" }
        defaultKey = defaultKey ∧
    airQualityEffectiveApiKey { city := city, country_code := cc, api_key := some "" }
        defaultKey = defaultKey :=
  ⟨⟨_, rfl, rfl⟩, ⟨_, rfl, rfl⟩, ⟨_, rfl, rfl⟩, ⟨_, rfl, rfl⟩, rfl, rfl⟩

/-- C6 counterexample: with `country_code` provided as the empty string, the
returned `country` is "US", not the provided `country_code` — refuting the
claim that `country` equals `country_code` whenever it is provided. -/
theorem country_code_empty_not_echoed :
    get_weather { city := "X", country_code := some "", days := 1, api_key := none }
        "demo_api_key" =
      .ok { city := "X", country := "US", current_temp := 23.5, current_condition := "Sunny",
            forecast := [{ date := "2025-05-27", min_temp := 18, max_temp := 25,
                           condition := "Sunny" }] } ∧
    ("US" : String) ≠ "" := by
  constructor
  · unfold get_weather
    simp only [pyOrStr, Int.toNat_one, List.range_succ, List.range_zero, List.nil_append,
      List.map_cons, List.map_nil, HandlerResult.ok.injEq, WeatherPayload.mk.injEq,
      ForecastDay.mk.injEq, List.cons.injEq, and_true]
    and_intros <;> (norm_num; try rfl)
  · decide

/-- C6 amended: in both handlers the returned `city` equals the request city,
and `country` equals the request `country_code` when it is provided and
non-empty, and is the literal "US" when `country_code` is absent or is the
empty string. -/
theorem country_fallback (reqW : WeatherRequest) (reqA : AirQualityRequest)
    (defaultKey : String) :
    ∃ pw pa, get_weather reqW defaultKey = .ok pw ∧
      get_air_quality reqA defaultKey = .ok pa ∧
      pw.city = reqW.city ∧ pa.city = reqA.city ∧
      pw.country = (match reqW.country_code with
        | none => "US"
        | some s => if s = "" then "US" else s) ∧
      pa.country = (match reqA.country_code with
        | none => "US"
        | some s => if s = "" then "US" else s) := by
  refine ⟨_, _, rfl, rfl, rfl, rfl, ?_, ?_⟩
  · show pyOrStr reqW.country_code "US" = _
    cases reqW.country_code <;> rfl
  · show pyOrStr reqA.country_code "US" = _
    cases reqA.country_code <;> rfl

/-- Unfolding equation for `get_weather`: the handler always succeeds with the
payload synthesized at server.py lines 95-110. -/
theorem get_weather_eq (request : WeatherRequest) (defaultKey : String) :
    get_weather request defaultKey =
      .ok { city := request.city
            country := pyOrStr request.country_code "US"
            current_temp := 23.5
            current_condition := "Sunny"
            forecast := (List.range request.days.toNat).map fun (i : Nat) =>
              { date := "2025-05-" ++ toString (27 + i)
                min_temp := 18 + (i : ℚ) * 0.5
                max_temp := 25 + (i : ℚ) * 0.7
                condition := if i % 2 == 0 then "Sunny" else "Cloudy" } } := rfl

/-- C1: for every validated WeatherRequest with days in [1,7], `get_weather`
succeeds with exactly `days` forecast entries; entry i (0-indexed) has
min_temp = 18 + 0.5·i, max_temp = 25 + 0.7·i and condition "Sunny" for even i,
"Cloudy" for odd i; `current_temp` is the constant 23.5 and
`current_condition` the constant "Sunny". -/
theorem get_weather_forecast_values (request : WeatherRequest) (defaultKey : String)
    (h1 : 1 ≤ request.days) (h7 : request.days ≤ 7) :
    ∃ p, get_weather request defaultKey = .ok p ∧
      (p.forecast.length : Int) = request.days ∧
      (∀ i (h : i < p.forecast.length),
        (p.forecast.get ⟨i, h⟩).min_temp = 18 + 0.5 * (i : ℚ) ∧
        (p.forecast.get ⟨i, h⟩).max_temp = 25 + 0.7 * (i : ℚ) ∧
        (p.forecast.get ⟨i, h⟩).condition = if i % 2 = 0 then "Sunny" else "Cloudy") ∧
      p.current_temp = 23.5 ∧
      p.current_condition = "Sunny" := by
  refine ⟨_, get_weather_eq request defaultKey, ?_, ?_, rfl, rfl⟩
  · simp [Int.toNat_of_nonneg (show (0 : Int) ≤ request.days by omega)]
  · intro i h
    simp only [List.get_eq_getElem, List.getElem_map, List.getElem_range]
    refine ⟨by ring, by ring, ?_⟩
    by_cases hp : i % 2 = 0 <;> simp [hp]

/-- C1 witness: the theorem applied to the spec scenario
`get_weather(\x7bcity:"Seoul", days:2\x7d)` with the placeholder default key. -/
theorem get_weather_forecast_values_witness :
    ∃ p, get_weather { city := "Seoul", country_code := none, days := 2, api_key := none }
        "demo_api_key" = .ok p ∧
      (p.forecast.length : Int) = 2 ∧
      (∀ i (h : i < p.forecast.length),
        (p.forecast.get ⟨i, h⟩).min_temp = 18 + 0.5 * (i : ℚ) ∧
        (p.forecast.get ⟨i, h⟩).max_temp = 25 + 0.7 * (i : ℚ) ∧
        (p.forecast.get ⟨i, h⟩).condition = if i % 2 = 0 then "Sunny" else "Cloudy") ∧
      p.current_temp = 23.5 ∧
      p.current_condition = "Sunny" :=
  get_weather_forecast_values
    { city := "Seoul", country_code := none, days := 2, api_key := none }
    "demo_api_key" (by norm_num) (by norm_num)

/-- C4: for every validated WeatherRequest with days in [1,7], forecast entry
i has date "2025-05-" followed by the decimal rendering of 27+i (which never
needs zero padding since 27+i ≥ 27); for days = 7 the last date is the
out-of-range calendar string "2025-05-33" — no month rollover. -/
theorem get_weather_forecast_dates (request : WeatherRequest) (defaultKey : String)
    (h1 : 1 ≤ request.days) (h7 : request.days ≤ 7) :
    ∃ p, get_weather request defaultKey = .ok p ∧
      (∀ i (h : i < p.forecast.length),
        (p.forecast.get ⟨i, h⟩).date = "2025-05-" ++ toString (27 + i)) ∧
      (request.days = 7 →
        (p.forecast.map ForecastDay.date).getLast? = some "2025-05-33") := by
  refine ⟨_, get_weather_eq request defaultKey, ?_, ?_⟩
  · intro i h
    simp only [List.get_eq_getElem, List.getElem_map, List.getElem_range]
  · intro hd
    have h7n : request.days.toNat = 7 := by omega
    simp only [h7n]
    decide

/-- C4 witness: the theorem applied at days = 7, exhibiting the
"2025-05-33" final date. -/
theorem get_weather_forecast_dates_witness :
    ∃ p, get_weather { city := "Seoul", country_code := none, days := 7, api_key := none }
        "demo_api_key" = .ok p ∧
      (∀ i (h : i < p.forecast.length),
        (p.forecast.get ⟨i, h⟩).date = "2025-05-" ++ toString (27 + i)) ∧
      ((7 : Int) = 7 → (p.forecast.map ForecastDay.date).getLast? = some "2025-05-33") :=
  get_weather_forecast_dates
    { city := "Seoul", country_code := none, days := 7, api_key := none }
    "demo_api_key" (by norm_num) (by norm_num)

/-- C2: a raw `get_weather` payload whose `days` field is present and is
either a non-integer value or an integer outside [1,7] is rejected by
validation with a ValidationError: no request record is ever produced, so the
value is never clamped and the handler body never runs on it. -/
theorem invalid_days_rejected (p : RawWeatherPayload) (v : JsonValue)
    (hv : p.days = some v)
    (hbad : coerceInt v = none ∨ ∃ n, coerceInt v = some n ∧ (n < 1 ∨ 7 < n)) :
    (∃ e, validateWeatherRequest p = .error e) ∧
    ∀ req, validateWeatherRequest p ≠ .ok req := by
  have herr : ∃ e, validateWeatherRequest p = .error e := by
    have hd : ∃ e, validateDays p.days = .error e := by
      rw [hv]
      rcases hbad with hnone | ⟨n, hn, hr⟩
      · simp [validateDays, hnone]
      · rcases hr with hlt | hgt
        · simp [validateDays, hn, hlt]
        · have hnlt : ¬n < 1 := by omega
          simp [validateDays, hn, hnlt, hgt]
    obtain ⟨e, he⟩ := hd
    unfold validateWeatherRequest
    cases hc : validateRequiredStr "city" p.city with
    | error ec => exact ⟨ec, rfl⟩
    | ok city =>
      cases hcc : validateOptionalStr "country_code" p.country_code with
      | error ec => exact ⟨ec, rfl⟩
      | ok ccv => exact ⟨e, by rw [he]⟩
  refine ⟨herr, ?_⟩
  obtain ⟨e, he⟩ := herr
  intro req hok
  rw [he] at hok
  exact Except.noConfusion hok

/-- C2 witness: the spec scenario `get_weather(\x7bcity:"X", days:8\x7d)` is
rejected by validation. -/
theorem invalid_days_rejected_witness :
    (∃ e, validateWeatherRequest
        { city := some (.jstr "X"), country_code := none,
          days := some (.jnum 8), api_key := none } = .error e) ∧
    ∀ req, validateWeatherRequest
        { city := some (.jstr "X"), country_code := none,
          days := some (.jnum 8), api_key := none } ≠ .ok req :=
  invalid_days_rejected
    { city := some (.jstr "X"), country_code := none,
      days := some (.jnum 8), api_key := none }
    (.jnum 8) rfl
    (Or.inr ⟨8, by simp [coerceInt], Or.inr (by norm_num)⟩)

/-- C8 counterexample: a payload whose `city` is the empty string is accepted
by validation in both request models (there is no non-emptiness constraint on
`city` in the source), refuting the claim that it is rejected. -/
theorem empty_city_accepted :
    validateWeatherRequest
        { city := some (.jstr ""), country_code := none, days := none, api_key := none } =
      .ok { city := "", country_code := none, days := 3, api_key := none } ∧
    validateAirQualityRequest
        { city := some (.jstr ""), country_code := none, api_key := none } =
      .ok { city := "", country_code := none, api_key := none } :=
  ⟨rfl, rfl⟩

/-- C8 amended: for both request types a payload missing `city` is rejected
with a ValidationError naming `city`; however, `city` is not constrained to be
non-empty — a payload whose `city` is the empty string passes validation. -/
theorem missing_city_rejected (pw : RawWeatherPayload) (pa : RawAirQualityPayload)
    (hw : pw.city = none) (ha : pa.city = none) :
    (∃ e, validateWeatherRequest pw = .error e ∧ e.field = "city") ∧
    (∃ e, validateAirQualityRequest pa = .error e ∧ e.field = "city") ∧
    validateWeatherRequest
        { city := some (.jstr ""), country_code := none, days := none, api_key := none } =
      .ok { city := "", country_code := none, days := 3, api_key := none } ∧
    validateAirQualityRequest
        { city := some (.jstr ""), country_code := none, api_key := none } =
      .ok { city := "", country_code := none, api_key := none } := by
  refine ⟨⟨{ field := "city", msg := "Field required" }, ?_, rfl⟩,
          ⟨{ field := "city", msg := "Field required" }, ?_, rfl⟩, rfl, rfl⟩
  · unfold validateWeatherRequest
    rw [hw]
    rfl
  · unfold validateAirQualityRequest
    rw [ha]
    rfl

/-- C8 witness: the amended theorem applied to the all-absent payloads. -/
theorem missing_city_rejected_witness :
    (∃ e, validateWeatherRequest
        { city := none, country_code := none, days := none, api_key := none } =
      .error e ∧ e.field = "city") ∧
    (∃ e, validateAirQualityRequest
        { city := none, country_code := none, api_key := none } =
      .error e ∧ e.field = "city") ∧
    validateWeatherRequest
        { city := some (.jstr ""), country_code := none, days := none, api_key := none } =
      .ok { city := "", country_code := none, days := 3, api_key := none } ∧
    validateAirQualityRequest
        { city := some (.jstr ""), country_code := none, api_key := none } =
      .ok { city := "", country_code := none, api_key := none } :=
  missing_city_rejected
    { city := none, country_code := none, days := none, api_key := none }
    { city := none, country_code := none, api_key := none }
    rfl rfl

/-- C3: `get_tool_definitions` exports exactly the tool names health,
get_weather, get_air_quality; the exported required-field lists ([], ["city"],
["city"]) agree with the validator (a missing `city` is the rejection for both
request models, and the city-only payload validates, so nothing else is
required); and the exported days bounds (minimum 1, maximum 7, default 3)
agree with the validator, which defaults an absent `days` to 3 and accepts a
supplied integer exactly when it lies in [1,7]. -/
theorem tool_definitions_match_validator :
    (get_tool_definitions ()).tools.map ToolDefinition.name =
      ["health", "get_weather", "get_air_quality"] ∧
    (get_tool_definitions ()).tools.map (fun t => t.parameters.required) =
      [[], ["city"], ["city"]] ∧
    (∃ e, validateWeatherRequest
        { city := none, country_code := none, days := none, api_key := none } =
      .error e ∧ e.field = "city") ∧
    (∃ e, validateAirQualityRequest
        { city := none, country_code := none, api_key := none } =
      .error e ∧ e.field = "city") ∧
    validateWeatherRequest
        { city := some (.jstr "Seoul"), country_code := none, days := none, api_key := none } =
      .ok { city := "Seoul", country_code := none, days := 3, api_key := none } ∧
    validateAirQualityRequest
        { city := some (.jstr "Seoul"), country_code := none, api_key := none } =
      .ok { city := "Seoul", country_code := none, api_key := none } ∧
    (get_tool_definitions ()).tools.map (fun t => t.parameters.properties.lookup "days") =
      [none,
       some { type := "integer", description := "Number of days for the forecast",
              default := some 3, minimum := some 1, maximum := some 7 },
       none] ∧
    ∀ n : Int,
      (∃ req, validateWeatherRequest
          { city := some (.jstr "Seoul"), country_code := none,
            days := some (.jnum (n : ℚ)), api_key := none } = .ok req ∧ req.days = n) ↔
        (1 ≤ n ∧ n ≤ 7) := by
  refine ⟨rfl, rfl, ⟨_, rfl, rfl⟩, ⟨_, rfl, rfl⟩, rfl, rfl, rfl, ?_⟩
  intro n
  have hc : coerceInt (.jnum (n : ℚ)) = some n := by simp [coerceInt]
  simp only [validateWeatherRequest, validateRequiredStr, validateOptionalStr, validateDays,
    coerceStr, hc]
  split_ifs with hlt hgt <;> simp <;> omega
